import Mathlib

/-!
Verification of the vector-retrieval core of the shopline-img-train
repository, shallowly embedded in Lean 4.

Embedded components (each definition is translated from the named source):
* `src/src/database/vector_db.py` — `VectorDatabase` (`_create_index`,
  `add_embeddings`, `search`, `search_batch`, `save`, `load`, `get_stats`);
* `src/scripts/build_robust_vector_db.py` (and the identical loop of
  `build_robust_vector_db_streaming.py`) — the augmentation/metadata loop;
* `src/src/models/grounding_dino.py` — `detect`, `_fallback_detect`,
  `crop_detections`;
* `src/src/pipeline/inference.py` — `SKURecognitionPipeline.process_image`;
* `src/src/utils/augmentation.py` — `ImageAugmenter.augment`.

Modelling conventions:
* float32 scalars are modelled as `ℚ`; FAISS returns *squared* L2 distances
  for L2-metric indexes and dot products for IP indexes, and this is what
  `scoreOf` computes;
* the external FAISS index is modelled as the exact nearest-neighbour
  structure it implements for the flat kinds: `faissSearch` scores every
  stored vector and returns the best `k`.  (For the IVF/HNSW kinds this is
  the exact-search idealisation of their approximate search; nothing below
  depends on their cell/graph pruning.);
* `faiss.normalize_L2` divides a row by its Euclidean norm; over `ℚ` the
  norm is represented exactly whenever the squared norm is a perfect
  rational square (`ratSqrt`), and a row whose norm is not so representable
  (or is zero) is left unchanged.  No theorem below depends on the numeric
  value of a normalized row;
* the external CLIP encoder, the Grounding-DINO model and the pixel-level
  augmentation transforms are black boxes per the spec (§1, §6) and appear
  as function parameters;
* Python exceptions are modelled with `Except String`; a `raise` inside
  `__init__`/`add_embeddings`/`load` is the corresponding `.error`.
-/

/-- `needle in hay` on Python strings (used by `vector_db.py` as
`"IP" in self.index_type` / `"L2" in self.index_type`). -/
def strContains (hay needle : String) : Bool :=
  let n := needle.toList
  let h := hay.toList
  (List.range (h.length + 1)).any fun i => n = ((h.drop i).take n.length)

/-- Dot product of two rows (`np.float32` arithmetic modelled over `ℚ`). -/
def dotQ (q v : List ℚ) : ℚ :=
  ((q.zip v).map fun p => p.1 * p.2).sum

/-- Squared Euclidean distance of two rows; this is the raw value a FAISS
L2 index reports as its "distance". -/
def sqDistQ (q v : List ℚ) : ℚ :=
  ((q.zip v).map fun p => (p.1 - p.2) * (p.1 - p.2)).sum

/-- Exact rational square root: the square root of `q` when `q` is the
square of a rational, `0` otherwise. -/
def ratSqrt (q : ℚ) : ℚ :=
  let n := Nat.sqrt q.num.toNat
  let d := Nat.sqrt q.den
  if ((n * n : Nat) : Int) = q.num ∧ d * d = q.den then (n : ℚ) / (d : ℚ) else 0

/-- `faiss.normalize_L2` on one row: divide by the Euclidean norm.  A row
whose norm is zero or not exactly representable in `ℚ` is left unchanged
(see the modelling conventions above). -/
def normalizeL2Row (v : List ℚ) : List ℚ :=
  let r := ratSqrt (dotQ v v)
  if r = 0 then v else v.map fun x => x / r

/-- The two FAISS metrics used by `_create_index`. -/
inductive Metric where
  | L2
  | IP
deriving DecidableEq, Repr

/-- The state of a FAISS index: its construction parameters, training flag
and the stored vectors in insertion order. -/
structure FaissIndex where
  dimension : Nat
  metric : Metric
  isIVF : Bool
  isTrained : Bool
  vectors : List (List ℚ)
deriving DecidableEq, Repr

/-- `faiss.Index.ntotal`. -/
def FaissIndex.ntotal (idx : FaissIndex) : Nat :=
  idx.vectors.length

/-- `VectorDatabase._create_index` (vector_db.py lines 45-73):
`IndexFlatL2` is a flat L2 index, `IndexFlatIP` a flat inner-product
index, `IndexIVFFlat` an IVF index built with `faiss.METRIC_L2` that
requires training, `IndexHNSWFlat` an (L2) HNSW graph index; any other
string raises `ValueError`. -/
def createIndex (index_type : String) (dimension : Nat) : Except String FaissIndex :=
  if index_type = "IndexFlatL2" then
    .ok { dimension := dimension, metric := .L2, isIVF := false, isTrained := true, vectors := [] }
  else if index_type = "IndexFlatIP" then
    .ok { dimension := dimension, metric := .IP, isIVF := false, isTrained := true, vectors := [] }
  else if index_type = "IndexIVFFlat" then
    .ok { dimension := dimension, metric := .L2, isIVF := true, isTrained := false, vectors := [] }
  else if index_type = "IndexHNSWFlat" then
    .ok { dimension := dimension, metric := .L2, isIVF := false, isTrained := true, vectors := [] }
  else
    .error "Unsupported index type"

/-- `VectorDatabase` (vector_db.py lines 13-43): configuration, the FAISS
index, and the parallel metadata list.  The Python metadata dictionaries
are an arbitrary type `α`. -/
structure VectorDatabase (α : Type) where
  dimension : Nat
  index_type : String
  metric : String
  nlist : Nat
  index : FaissIndex
  metadata : List α
deriving DecidableEq

/-- `VectorDatabase.__init__`: build the index from the configuration
(`ValueError` from `_create_index` propagates), empty metadata. -/
def VectorDatabase.init (α : Type) (dimension : Nat) (index_type : String)
    (metric : String) (nlist : Nat) : Except String (VectorDatabase α) :=
  (createIndex index_type dimension).map fun idx =>
    { dimension := dimension, index_type := index_type, metric := metric,
      nlist := nlist, index := idx, metadata := [] }

/-- Normalization condition of `add_embeddings`/`search`
(vector_db.py lines 94, 137): `self.metric == "IP" or "IP" in self.index_type`. -/
def VectorDatabase.ipNormalize (db : VectorDatabase α) : Bool :=
  db.metric = "IP" || strContains db.index_type "IP"

/-- `VectorDatabase.add_embeddings` (vector_db.py lines 75-108): reject
mismatched lengths (`ValueError`); L2-normalize the batch when the IP
condition holds; train an untrained IVF index on the batch; append the
vectors to the index and the metadata to the parallel list. -/
def VectorDatabase.add_embeddings (db : VectorDatabase α)
    (embeddings : List (List ℚ)) (metadata : List α) :
    Except String (VectorDatabase α) :=
  if embeddings.length ≠ metadata.length then
    .error "Number of embeddings must match metadata length"
  else
    let embeddings := if db.ipNormalize then embeddings.map normalizeL2Row else embeddings
    let idx := if db.index.isIVF ∧ db.index.isTrained = false then
        { db.index with isTrained := true }
      else db.index
    let idx := { idx with vectors := idx.vectors ++ embeddings }
    .ok { db with index := idx, metadata := db.metadata ++ metadata }

/-- Score a FAISS index reports for one stored vector: squared L2 distance
for an L2 index (smaller is closer), dot product for an IP index (larger
is closer). -/
def scoreOf : Metric → List ℚ → List ℚ → ℚ
  | .L2, q, v => sqDistQ q v
  | .IP, q, v => dotQ q v

/-- Result ordering of a FAISS index: best first, i.e. ascending scores
for L2, descending for IP. -/
def cmpScore : Metric → ℚ → ℚ → Bool
  | .L2 => fun a b => decide (a ≤ b)
  | .IP => fun a b => decide (b ≤ a)

/-- Every stored vector paired with its score for the query and its
position in the index. -/
def scoredList (metric : Metric) (q : List ℚ) (vectors : List (List ℚ)) :
    List (ℚ × Int) :=
  ((List.range vectors.length).zip vectors).map fun p =>
    (scoreOf metric q p.2, (p.1 : Int))

/-- Insert one scored entry into a list sorted best-first (stable). -/
def insertScored (le : ℚ → ℚ → Bool) (x : ℚ × Int) :
    List (ℚ × Int) → List (ℚ × Int)
  | [] => [x]
  | y :: ys => if le x.1 y.1 then x :: y :: ys else y :: insertScored le x ys

/-- Sort scored entries best-first (insertion sort; FAISS leaves tie order
unspecified, this model breaks ties by index order). -/
def sortScored (le : ℚ → ℚ → Bool) : List (ℚ × Int) → List (ℚ × Int)
  | [] => []
  | x :: xs => insertScored le x (sortScored le xs)

/-- `faiss.Index.search` for one query, modelled as exact search: score
every stored vector, order best-first, return the best `k` scores and
their positions.  (The caller always passes `k ≤ ntotal`.) -/
def faissSearch (idx : FaissIndex) (q : List ℚ) (k : Nat) : List ℚ × List Int :=
  let top := (sortScored (cmpScore idx.metric) (scoredList idx.metric q idx.vectors)).take k
  (top.map Prod.fst, top.map Prod.snd)

/-- The query preparation of `search` (vector_db.py lines 131-138): the
reshape/float32 casts are identities here; L2-normalize when the IP
condition holds. -/
def VectorDatabase.prepQuery (db : VectorDatabase α) (query : List ℚ) : List ℚ :=
  if db.ipNormalize then normalizeL2Row query else query

/-- The raw `(distances, indices)` pair `search` obtains from the index
(vector_db.py lines 140-142), with `k` already clamped to `ntotal`. -/
def VectorDatabase.searchRaw (db : VectorDatabase α) (query : List ℚ) (k : Nat) :
    List ℚ × List Int :=
  faissSearch db.index (db.prepQuery query) (min k db.index.ntotal)

/-- The metadata-collection loop of `search` (vector_db.py lines 145-148):
keep `self.metadata[idx]` for every returned position `idx` with
`0 ≤ idx < len(self.metadata)`. -/
def collectResults (metadata : List α) (indices : List Int) : List α :=
  indices.filterMap fun idx =>
    if 0 ≤ idx ∧ idx < (metadata.length : Int) then metadata.get? idx.toNat else none

/-- The similarity conversion of `search`/`search_batch`
(vector_db.py lines 150-157, 202-206): when the index-type STRING contains
`"L2"`, report `1/(1+d)`; otherwise report the raw values. -/
def convertSims (index_type : String) (distances : List ℚ) : List ℚ :=
  if strContains index_type "L2" then distances.map fun d => 1 / (1 + d) else distances

/-- `VectorDatabase.search` (vector_db.py lines 110-161): empty index
returns `([], None)`; otherwise prepare the query, clamp `k`, search, keep
the in-range metadata, and report converted similarities when
`return_distances`. -/
def VectorDatabase.search (db : VectorDatabase α) (query : List ℚ) (k : Nat)
    (return_distances : Bool) : List α × Option (List ℚ) :=
  if db.index.ntotal = 0 then ([], none)
  else
    let raw := db.searchRaw query k
    let results := collectResults db.metadata raw.2
    if return_distances then (results, some (convertSims db.index_type raw.1))
    else (results, none)

/-- `VectorDatabase.search_batch` (vector_db.py lines 163-208): the same
per-row contract over a list of queries; an empty index yields one empty
result row per query and an empty similarity array. -/
def VectorDatabase.search_batch (db : VectorDatabase α) (queries : List (List ℚ))
    (k : Nat) : List (List α) × List (List ℚ) :=
  if db.index.ntotal = 0 then (queries.map fun _ => [], [])
  else
    let rows := queries.map fun q => db.searchRaw q k
    (rows.map fun r => collectResults db.metadata r.2,
     rows.map fun r => convertSims db.index_type r.1)

/-- `VectorDatabase.get_stats` (vector_db.py lines 258-266). -/
structure DbStats where
  total_embeddings : Nat
  dimension : Nat
  index_type : String
  metric : String
  metadata_count : Nat
deriving DecidableEq, Repr

/-- `VectorDatabase.get_stats`. -/
def VectorDatabase.get_stats (db : VectorDatabase α) : DbStats :=
  { total_embeddings := db.index.ntotal, dimension := db.dimension,
    index_type := db.index_type, metric := db.metric,
    metadata_count := db.metadata.length }

/-! ## Persistence (vector_db.py `save`/`load`)

The on-disk state is a map from paths to file contents; a write replaces
the file at its path (each single-file write is atomic in this model; the
claims examined below concern what happens *between* the two writes of
`save`). -/

/-- Content of one artifact file: the binary FAISS index written by
`faiss.write_index`, or the pickle written by `save` (metadata list plus
the `dimension`/`index_type`/`metric`/`nlist` configuration; `nlist` is
optional because `load` reads it with `data.get('nlist', 100)`). -/
inductive FileContent (α : Type) where
  | indexFile (idx : FaissIndex)
  | metaFile (metadata : List α) (dimension : Nat) (index_type : String)
      (metric : String) (nlist : Option Nat)
deriving DecidableEq

/-- The file system: what each path holds, if anything. -/
def FS (α : Type) : Type := String → Option (FileContent α)

/-- Write one file in place. -/
def writeFS (fs : FS α) (path : String) (c : FileContent α) : FS α :=
  fun p => if p = path then some c else fs p

/-- The first write `save` performs (vector_db.py line 222):
`faiss.write_index(self.index, str(index_path))`, directly at the final
path.  This is also the on-disk state when the process dies before the
metadata write. -/
def VectorDatabase.saveIndexStep (db : VectorDatabase α) (fs : FS α)
    (index_path : String) : FS α :=
  writeFS fs index_path (.indexFile db.index)

/-- `VectorDatabase.save` (vector_db.py lines 210-234): write the FAISS
index at `index_path`, then pickle metadata + configuration at
`metadata_path`.  Both writes go directly to the final paths. -/
def VectorDatabase.save (db : VectorDatabase α) (fs : FS α)
    (index_path metadata_path : String) : FS α :=
  writeFS (db.saveIndexStep fs index_path) metadata_path
    (.metaFile db.metadata db.dimension db.index_type db.metric (some db.nlist))

/-- `VectorDatabase.load` (vector_db.py lines 236-256): read the FAISS
index from `index_path`, then the pickle from `metadata_path`, and adopt
every field from the respective file (`nlist` defaulting to 100).  A
missing file or a file of the wrong kind raises.  No field of the two
files is compared with any other. -/
def VectorDatabase.load (fs : FS α) (index_path metadata_path : String) :
    Except String (VectorDatabase α) :=
  match fs index_path with
  | some (.indexFile idx) =>
    match fs metadata_path with
    | some (.metaFile md d t m nl) =>
      .ok { dimension := d, index_type := t, metric := m, nlist := nl.getD 100,
            index := idx, metadata := md }
    | _ => .error "failed to load metadata"
  | _ => .error "failed to read index"

/-! ## The robust index builder (scripts/build_robust_vector_db.py)

The per-source loop of `main` (lines 202-238; the chunked loop of
build_robust_vector_db_streaming.py lines 171-205 appends the same entries
per source).  The CLIP encoder and the pixel transforms of
`apply_light_augmentation` are external black boxes, passed as functions;
the loop is modelled over the sources that process without an exception
(a failing source is skipped whole by the `except: continue`). -/

/-- An image, as much of it as the embedded control flow inspects: its
pixel dimensions.  Pixel content lives in the black-box transform and
encoder functions. -/
structure Img where
  width : Nat
  height : Nat
deriving DecidableEq, Repr

/-- One catalog record (`sku_info`): the fields the loop copies into every
entry's metadata. -/
structure SkuRecord where
  sku : String
  title : String
  category : String
deriving DecidableEq, Repr

/-- Metadata of one index entry as the builder writes it: the copied
catalog record, plus — for synthetic entries only — the keys
`'augmented': True`, `'aug_index': aug_idx + 1`, `'aug_type': aug_type`
(absent keys are `false`/`none`). -/
structure EntryMeta where
  info : SkuRecord
  augmented : Bool
  aug_index : Option Nat
  aug_type : Option Nat
deriving DecidableEq, Repr

/-- Metadata of an original entry: the catalog record itself, no
augmentation keys. -/
def origMeta (rec : SkuRecord) : EntryMeta :=
  { info := rec, augmented := false, aug_index := none, aug_type := none }

/-- Metadata of the `i`-th synthetic variant of a source (0-based loop
index `aug_idx = i`): provenance flag set, `aug_index = i + 1`,
`aug_type = i % 5` (`apply_light_augmentation` has 5 transform kinds). -/
def synthMeta (rec : SkuRecord) (i : Nat) : EntryMeta :=
  { info := rec, augmented := true, aug_index := some (i + 1), aug_type := some (i % 5) }

/-- The embeddings one source contributes: the encoded original, then the
encoded variant `apply_light_augmentation(img, aug_type = i % 5)` for each
`i < augment_per_image`. -/
def sourceEmbeds (encode : Img → List ℚ) (augment : Img → Nat → Img)
    (img : Img) (n : Nat) : List (List ℚ) :=
  encode img :: (List.range n).map fun i => encode (augment img (i % 5))

/-- The metadata one source contributes, parallel to `sourceEmbeds`. -/
def sourceMetas (rec : SkuRecord) (n : Nat) : List EntryMeta :=
  origMeta rec :: (List.range n).map fun i => synthMeta rec i

/-- The builder loop over the successfully processed sources: each source
appends its original entry followed by its `n` synthetic variants to the
two parallel lists (`all_embeddings`, `all_metadata`). -/
def buildEntries (encode : Img → List ℚ) (augment : Img → Nat → Img)
    (n : Nat) : List (Img × SkuRecord) → List (List ℚ) × List EntryMeta
  | [] => ([], [])
  | (img, rec) :: rest =>
    let tail := buildEntries encode augment n rest
    (sourceEmbeds encode augment img n ++ tail.1, sourceMetas rec n ++ tail.2)

/-! ## Detector and recognition pipeline
(src/src/models/grounding_dino.py, src/src/pipeline/inference.py) -/

/-- A detection box in `[x1, y1, x2, y2]` pixel coordinates. -/
structure Box4 where
  x1 : ℚ
  y1 : ℚ
  x2 : ℚ
  y2 : ℚ
deriving DecidableEq, Repr

/-- A raw box as the Grounding-DINO predict function emits it:
`[cx, cy, w, h]`, normalized to the image size. -/
structure RawBox where
  cx : ℚ
  cy : ℚ
  w : ℚ
  h : ℚ
deriving DecidableEq, Repr

/-- `GroundingDINODetector` state: `self.model`/`self.predict_fn` are
`None` when the groundingdino import failed (grounding_dino.py lines
63-67); otherwise the loaded model with its predict function, a black box
that either returns `(boxes, logits, phrases)` or raises. -/
structure Detector where
  model : Option (Img → Except String (List RawBox × List ℚ × List String))

/-- `GroundingDINODetector._fallback_detect` (grounding_dino.py lines
147-169): one box spanning the whole image, score `1.0`, label
`"product"`. -/
def fallback_detect (image : Img) : List Box4 × List ℚ × List String :=
  ([{ x1 := 0, y1 := 0, x2 := (image.width : ℚ), y2 := (image.height : ℚ) }],
   [1], ["product"])

/-- The box denormalization of `detect` (grounding_dino.py lines 128-133):
`[cx, cy, w, h]` normalized → `[x1, y1, x2, y2]` in pixels. -/
def denormBox (image : Img) (b : RawBox) : Box4 :=
  { x1 := (b.cx - b.w / 2) * (image.width : ℚ),
    y1 := (b.cy - b.h / 2) * (image.height : ℚ),
    x2 := (b.cx + b.w / 2) * (image.width : ℚ),
    y2 := (b.cy + b.h / 2) * (image.height : ℚ) }

/-- `GroundingDINODetector.detect` (grounding_dino.py lines 86-145): with
no loaded model, fall back; with a model, run prediction — an exception
falls back, a nonempty box list is denormalized and returned, and an EMPTY
box list is returned as empty (no fallback on that path). -/
def Detector.detect (det : Detector) (image : Img) :
    List Box4 × List ℚ × List String :=
  match det.model with
  | none => fallback_detect image
  | some predict =>
    match predict image with
    | .error _ => fallback_detect image
    | .ok (boxes, logits, phrases) =>
      if 0 < boxes.length then (boxes.map (denormBox image), logits, phrases)
      else ([], [], [])

/-- `numpy.astype(int)` on one float coordinate: truncation toward zero. -/
def ratTrunc (q : ℚ) : Int :=
  q.num.tdiv q.den

/-- A cropped region: the source image and the clamped integer slice
bounds; `crop.shape[0]` is `rows`, `crop.shape[1]` is `cols`. -/
structure CropRegion where
  img : Img
  x1 : Int
  y1 : Int
  x2 : Int
  y2 : Int
deriving DecidableEq, Repr

/-- `crop.shape[0]` of the numpy slice `img_array[y1:y2, x1:x2]`. -/
def CropRegion.rows (c : CropRegion) : Nat := (c.y2 - c.y1).toNat

/-- `crop.shape[1]` of the numpy slice `img_array[y1:y2, x1:x2]`. -/
def CropRegion.cols (c : CropRegion) : Nat := (c.x2 - c.x1).toNat

/-- `GroundingDINODetector.crop_detections` (grounding_dino.py lines
245-280): cast each box to int and clamp every coordinate into the image
bounds, then slice. -/
def crop_detections (image : Img) (boxes : List Box4) : List CropRegion :=
  boxes.map fun b =>
    let w : Int := image.width
    let h : Int := image.height
    { img := image,
      x1 := max 0 (min (ratTrunc b.x1) w),
      y1 := max 0 (min (ratTrunc b.y1) h),
      x2 := max 0 (min (ratTrunc b.x2) w),
      y2 := max 0 (min (ratTrunc b.y2) h) }

/-- One emitted recognition result (inference.py lines 235-250):
`detection_id` is the position in the zipped detection list, and
`top_matches` zips the retrieved metadata with the similarities. -/
structure RecoResult (α : Type) where
  detection_id : Nat
  box : Box4
  detection_score : ℚ
  detection_label : String
  top_matches : List (α × ℚ)
deriving DecidableEq

/-- `SKURecognitionPipeline` state (inference.py): the CLIP encoder is the
black-box `encode` (`recognize_sku` feeds each crop through it), plus the
detector, the loaded database and the inference settings. -/
structure Pipeline (α : Type) where
  detector : Detector
  encode : CropRegion → List ℚ
  vector_db : VectorDatabase α
  confidence_threshold : ℚ
  top_k : Nat

/-- The recognition loop of `process_image` (inference.py lines 223-251)
over `enumerate(zip(boxes, scores, labels, crops))`: skip a crop under 10
pixels in either dimension (its index is still consumed); otherwise embed
the crop, search with `top_k`, and emit a result exactly when some match
came back and the best similarity clears the threshold.  (`headD 0` is
never reached with a default: a nonempty result list forces a nonempty
similarity row.) -/
def processDetections (p : Pipeline α) :
    Nat → List (Box4 × ℚ × String × CropRegion) → List (RecoResult α)
  | _, [] => []
  | i, (box, score, label, crop) :: rest =>
    if crop.rows < 10 ∨ crop.cols < 10 then processDetections p (i + 1) rest
    else
      let found := p.vector_db.search (p.encode crop) p.top_k true
      if 0 < found.1.length ∧ p.confidence_threshold ≤ (found.2.getD []).headD 0 then
        { detection_id := i, box := box, detection_score := score,
          detection_label := label,
          top_matches := found.1.zip (found.2.getD []) } :: processDetections p (i + 1) rest
      else processDetections p (i + 1) rest

/-- Zip of the four per-detection lists (`zip(boxes, scores, labels, crops)`). -/
def zipDetections : List Box4 → List ℚ → List String → List CropRegion →
    List (Box4 × ℚ × String × CropRegion)
  | b :: bs, s :: ss, l :: ls, c :: cs => (b, s, l, c) :: zipDetections bs ss ls cs
  | _, _, _, _ => []

/-- `SKURecognitionPipeline.process_image` (inference.py lines 186-259):
detect; an empty detection list returns `[]` at once; otherwise crop every
detection and run the recognition loop. -/
def Pipeline.process_image (p : Pipeline α) (image : Img) : List (RecoResult α) :=
  let det := p.detector.detect image
  if det.1.length = 0 then []
  else
    let crops := crop_detections image det.1
    processDetections p 0 (zipDetections det.1 det.2.1 det.2.2 crops)

/-! ## Image augmentation dispatch (src/src/utils/augmentation.py) -/

/-- `ImageAugmenter`: the seven pixel-level transforms are black boxes
(out of scope per the spec §1); only the string dispatch of `augment` is
embedded. -/
structure ImageAugmenter (Image : Type) where
  flip_horizontal : Image → Image
  flip_vertical : Image → Image
  random_crop : Image → Image
  adjust_brightness : Image → Image
  adjust_contrast : Image → Image
  add_noise : Image → Image
  rotateImage : Image → Image

/-- The `augmentation_map` dictionary of `augment` (augmentation.py lines
106-114), in insertion order. -/
def augmentationMap (aug : ImageAugmenter Image) : List (String × (Image → Image)) :=
  [("flip_h", aug.flip_horizontal),
   ("flip_v", aug.flip_vertical),
   ("crop", aug.random_crop),
   ("brightness", aug.adjust_brightness),
   ("contrast", aug.adjust_contrast),
   ("noise", aug.add_noise),
   ("rotate", aug.rotateImage)]

/-- `ImageAugmenter.augment` (augmentation.py lines 94-120): look the type
up in the map and apply it; an unknown type logs a warning and returns the
input image unchanged. -/
def ImageAugmenter.augment (aug : ImageAugmenter Image) (image : Image)
    (augmentation_type : String) : Image :=
  match (augmentationMap aug).lookup augmentation_type with
  | some f => f image
  | none => image

/-! ## Helper lemmas about the search model -/

theorem length_insertScored (le : ℚ → ℚ → Bool) (x : ℚ × Int)
    (l : List (ℚ × Int)) : (insertScored le x l).length = l.length + 1 := by
  induction l with
  | nil => rfl
  | cons y ys ih =>
    simp only [insertScored]
    split
    · simp
    · simp [ih]

theorem length_sortScored (le : ℚ → ℚ → Bool) (l : List (ℚ × Int)) :
    (sortScored le l).length = l.length := by
  induction l with
  | nil => rfl
  | cons x xs ih => simp [sortScored, length_insertScored, ih]

theorem mem_insertScored {le : ℚ → ℚ → Bool} {x y : ℚ × Int}
    {l : List (ℚ × Int)} (h : y ∈ insertScored le x l) : y = x ∨ y ∈ l := by
  induction l with
  | nil => simpa [insertScored] using h
  | cons z zs ih =>
    simp only [insertScored] at h
    split at h
    · rcases List.mem_cons.mp h with h1 | h2
      · exact Or.inl h1
      · exact Or.inr h2
    · rcases List.mem_cons.mp h with h1 | h2
      · exact Or.inr (by simp [h1])
      · rcases ih h2 with h3 | h4
        · exact Or.inl h3
        · exact Or.inr (List.mem_cons_of_mem _ h4)

theorem mem_sortScored {le : ℚ → ℚ → Bool} {y : ℚ × Int}
    {l : List (ℚ × Int)} (h : y ∈ sortScored le l) : y ∈ l := by
  induction l with
  | nil => simpa [sortScored] using h
  | cons x xs ih =>
    rcases mem_insertScored h with h1 | h2
    · simp [h1]
    · exact List.mem_cons_of_mem _ (ih h2)

theorem length_scoredList (m : Metric) (q : List ℚ) (vs : List (List ℚ)) :
    (scoredList m q vs).length = vs.length := by
  simp [scoredList]

theorem snd_of_mem_scoredList {m : Metric} {q : List ℚ} {vs : List (List ℚ)}
    {p : ℚ × Int} (h : p ∈ scoredList m q vs) :
    0 ≤ p.2 ∧ p.2 < (vs.length : Int) := by
  simp only [scoredList, List.mem_map] at h
  obtain ⟨⟨i, v⟩, hmem, rfl⟩ := h
  have hi : i < vs.length := List.mem_range.mp (List.of_mem_zip hmem).1
  constructor
  · show (0 : Int) ≤ (i : Int)
    exact Int.natCast_nonneg i
  · show (i : Int) < (vs.length : Int)
    exact_mod_cast hi

theorem fst_of_mem_scoredList {m : Metric} {q : List ℚ} {vs : List (List ℚ)}
    {p : ℚ × Int} (h : p ∈ scoredList m q vs) :
    ∃ v ∈ vs, p.1 = scoreOf m q v := by
  simp only [scoredList, List.mem_map] at h
  obtain ⟨⟨i, v⟩, hmem, rfl⟩ := h
  exact ⟨v, (List.of_mem_zip hmem).2, rfl⟩

theorem length_faissSearch_fst (idx : FaissIndex) (q : List ℚ) (k : Nat) :
    (faissSearch idx q k).1.length = min k idx.vectors.length := by
  simp [faissSearch, length_sortScored, length_scoredList]

theorem length_faissSearch_snd (idx : FaissIndex) (q : List ℚ) (k : Nat) :
    (faissSearch idx q k).2.length = min k idx.vectors.length := by
  simp [faissSearch, length_sortScored, length_scoredList]

theorem mem_faissSearch_snd {idx : FaissIndex} {q : List ℚ} {k : Nat}
    {i : Int} (h : i ∈ (faissSearch idx q k).2) :
    0 ≤ i ∧ i < (idx.vectors.length : Int) := by
  simp only [faissSearch, List.mem_map] at h
  obtain ⟨p, hp, rfl⟩ := h
  exact snd_of_mem_scoredList (mem_sortScored (List.take_subset _ _ hp))

theorem mem_faissSearch_fst {idx : FaissIndex} {q : List ℚ} {k : Nat}
    {s : ℚ} (h : s ∈ (faissSearch idx q k).1) :
    ∃ v ∈ idx.vectors, s = scoreOf idx.metric q v := by
  simp only [faissSearch, List.mem_map] at h
  obtain ⟨p, hp, rfl⟩ := h
  exact fst_of_mem_scoredList (mem_sortScored (List.take_subset _ _ hp))

theorem length_collectResults {α : Type} {metadata : List α} {indices : List Int}
    (h : ∀ i ∈ indices, 0 ≤ i ∧ i < (metadata.length : Int)) :
    (collectResults metadata indices).length = indices.length := by
  induction indices with
  | nil => rfl
  | cons i is ih =>
    have hi := h i (List.mem_cons_self i is)
    have hlt : i.toNat < metadata.length := by omega
    obtain ⟨a, ha⟩ : ∃ a, metadata.get? i.toNat = some a := ⟨_, List.get?_eq_get hlt⟩
    have step : (if 0 ≤ i ∧ i < (metadata.length : Int)
        then metadata.get? i.toNat else none) = some a := by
      rw [if_pos ⟨hi.1, hi.2⟩]; exact ha
    have ih' := ih fun j hj => h j (List.mem_cons_of_mem _ hj)
    simp only [collectResults] at ih' ⊢
    rw [List.filterMap_cons]
    simp only [step]
    change (a :: List.filterMap _ is).length = is.length + 1
    rw [List.length_cons, ih']

/-! ## Concrete instances used to exercise the theorems -/

/-- Unwrap an `Except` that is known to be `.ok`, with a fallback. -/
def getOk (e : Except String β) (fallback : β) : β :=
  match e with
  | .ok x => x
  | .error _ => fallback

/-- Fallback database for `getOk` (never reached below). -/
def junkDB (α : Type) : VectorDatabase α :=
  { dimension := 0, index_type := "", metric := "", nlist := 0,
    index := { dimension := 0, metric := .L2, isIVF := false, isTrained := true, vectors := [] },
    metadata := [] }

/-- A flat L2 database holding three 1-dimensional entries. -/
def dbThree : VectorDatabase Nat :=
  getOk ((VectorDatabase.init Nat 1 "IndexFlatL2" "L2" 100).bind fun db =>
    db.add_embeddings [[0], [1], [2]] [0, 1, 2]) (junkDB Nat)

/-- C2: for every index with `N` entries, every query and every `k ≥ 1`,
`search` returns exactly `min k N` results, and an empty index yields
`([], none)` rather than an error (the embedded `search` is a total
function: no code path of vector_db.py lines 110-161 raises). -/
theorem search_returns_min_k (α : Type) (db : VectorDatabase α) (q : List ℚ)
    (k : Nat) (hinv : db.metadata.length = db.index.ntotal) (hk : 1 ≤ k) :
    (db.search q k true).1.length = min k db.index.ntotal ∧
    (db.index.ntotal = 0 → db.search q k true = ([], none)) := by
  constructor
  · by_cases h0 : db.index.ntotal = 0
    · simp [VectorDatabase.search, h0]
    · simp only [VectorDatabase.search, if_neg h0]
      have hb : ∀ i ∈ (db.searchRaw q k).2, 0 ≤ i ∧ i < (db.metadata.length : Int) := by
        intro i hi
        have hmem := @mem_faissSearch_snd db.index (db.prepQuery q)
          (min k db.index.ntotal) i hi
        rw [hinv]
        exact hmem
      show (collectResults db.metadata (db.searchRaw q k).2).length = min k db.index.ntotal
      rw [length_collectResults hb, VectorDatabase.searchRaw, length_faissSearch_snd]
      simp [FaissIndex.ntotal, Nat.min_assoc]
  · intro h0
    simp [VectorDatabase.search, h0]

/-- Concrete check of the C2 theorem: the spec scenario `search(query,
k=10)` against an index with 3 entries. -/
theorem search_returns_min_k_witness :
    (dbThree.search [5] 10 true).1.length = min 10 dbThree.index.ntotal ∧
    (dbThree.index.ntotal = 0 → dbThree.search [5] 10 true = ([], none)) :=
  search_returns_min_k Nat dbThree [5] 10 (by decide) (by decide)

/-- C3: `add_embeddings` succeeds exactly when the embedding count equals
the metadata count, and a successful add extends the stored vectors and
the metadata list by that same amount, preserving
`len(embeddings) == len(metadata)` (as reported by `get_stats`). -/
theorem add_embeddings_parallel (α : Type) (db : VectorDatabase α)
    (es : List (List ℚ)) (ms : List α)
    (hinv : db.metadata.length = db.index.ntotal) :
    ((db.add_embeddings es ms).isOk = true ↔ es.length = ms.length) ∧
    (match db.add_embeddings es ms with
     | .ok db' => db'.index.ntotal = db.index.ntotal + es.length ∧
         db'.metadata.length = db.metadata.length + ms.length ∧
         db'.metadata.length = db'.index.ntotal ∧
         db'.get_stats.total_embeddings = db'.get_stats.metadata_count
     | .error _ => True) := by
  by_cases h : es.length = ms.length
  · constructor
    · simp [VectorDatabase.add_embeddings, h, Except.isOk, Except.toBool]
    · simp only [VectorDatabase.add_embeddings, if_neg (by omega : ¬ es.length ≠ ms.length)]
      have hv : (if db.index.isIVF = true ∧ db.index.isTrained = false then
          { db.index with isTrained := true } else db.index).vectors = db.index.vectors := by
        split <;> rfl
      have hlen : (if db.ipNormalize = true then es.map normalizeL2Row else es).length
          = es.length := by
        split <;> simp
      have hnt : db.index.ntotal = db.index.vectors.length := rfl
      refine ⟨?_, ?_, ?_, ?_⟩ <;>
        simp only [FaissIndex.ntotal, VectorDatabase.get_stats, hv, hlen,
          List.length_append] <;>
        omega
  · constructor
    · simp [VectorDatabase.add_embeddings, h, Except.isOk, Except.toBool]
    · simp [VectorDatabase.add_embeddings, h]

/-- Concrete check of the C3 theorem: a successful and a rejected add on
the three-entry database. -/
theorem add_embeddings_parallel_witness :
    (((dbThree.add_embeddings [[3]] [3]).isOk = true ↔ ([[3]] : List (List ℚ)).length = [3].length) ∧
    (match dbThree.add_embeddings [[3]] [3] with
     | .ok db' => db'.index.ntotal = dbThree.index.ntotal + 1 ∧
         db'.metadata.length = dbThree.metadata.length + 1 ∧
         db'.metadata.length = db'.index.ntotal ∧
         db'.get_stats.total_embeddings = db'.get_stats.metadata_count
     | .error _ => True)) :=
  add_embeddings_parallel Nat dbThree [[3]] [3] (by decide)

/-! ## Persistence claims -/

/-- C5 (amended): `load` performs no cross-file schema validation — for
any index artifact and any metadata artifact at the two paths, whatever
their recorded dimension/kind/metric, it returns a database that adopts
the index file's structure and the metadata file's configuration
unconditionally. -/
theorem load_no_schema_validation (α : Type) (fs : FS α) (ip mp : String)
    (idx : FaissIndex) (md : List α) (d : Nat) (t m : String) (nl : Option Nat)
    (hix : fs ip = some (.indexFile idx))
    (hmd : fs mp = some (.metaFile md d t m nl)) :
    VectorDatabase.load fs ip mp =
      .ok { dimension := d, index_type := t, metric := m, nlist := nl.getD 100,
            index := idx, metadata := md } := by
  simp [VectorDatabase.load, hix, hmd]

/-- The dimension-4 index artifact of the mismatched pair. -/
def idxFileDim4 : FaissIndex :=
  { dimension := 4, metric := .L2, isIVF := false, isTrained := true, vectors := [] }

/-- A file system holding an index artifact of dimension 4 next to a
metadata artifact recording dimension 8. -/
def fsMismatch : FS Unit := fun p =>
  if p = "index.bin" then some (.indexFile idxFileDim4)
  else if p = "meta.pkl" then some (.metaFile [] 8 "IndexFlatL2" "L2" (some 100))
  else none

/-- C5 (counterexample): on companion files whose recorded dimensions
disagree (index file: 4, metadata file: 8), `load` succeeds — no
`SchemaMismatchError` (the identifier appears nowhere in the repository) —
and yields an index built from the mismatched files. -/
theorem load_accepts_mismatched_files :
    (VectorDatabase.load fsMismatch "index.bin" "meta.pkl").map
      (fun db => (db.dimension, db.index.dimension)) = .ok (8, 4) ∧
    (8 : Nat) ≠ 4 :=
  ⟨rfl, by decide⟩

/-- Concrete check of the C5 (amended) theorem at the mismatched pair. -/
theorem load_no_schema_validation_witness :
    VectorDatabase.load fsMismatch "index.bin" "meta.pkl" =
      .ok { dimension := 8, index_type := "IndexFlatL2", metric := "L2",
            nlist := (some 100).getD 100, index := idxFileDim4, metadata := ([] : List Unit) } :=
  load_no_schema_validation Unit fsMismatch "index.bin" "meta.pkl" idxFileDim4
    [] 8 "IndexFlatL2" "L2" (some 100) rfl rfl

/-- C6: persisting to two distinct paths and restoring from them is a
lossless round trip — the restored database equals the saved one, hence
has identical `get_stats` and identical `search` results for every fixed
query and `k`. -/
theorem save_load_roundtrip (α : Type) (db : VectorDatabase α) (fs : FS α)
    (ip mp : String) (q : List ℚ) (k : Nat) (h : ip ≠ mp) :
    VectorDatabase.load (db.save fs ip mp) ip mp = .ok db ∧
    (VectorDatabase.load (db.save fs ip mp) ip mp).map VectorDatabase.get_stats
      = .ok db.get_stats ∧
    (VectorDatabase.load (db.save fs ip mp) ip mp).map (fun d2 => d2.search q k true)
      = .ok (db.search q k true) := by
  have key : VectorDatabase.load (db.save fs ip mp) ip mp = .ok db := by
    simp [VectorDatabase.save, VectorDatabase.saveIndexStep, VectorDatabase.load,
      writeFS, h]
  exact ⟨key, by rw [key]; rfl, by rw [key]; rfl⟩

/-- A flat L2 database of dimension 2 with no entries. -/
def dbEmptyFlat : VectorDatabase Unit :=
  getOk (VectorDatabase.init Unit 2 "IndexFlatL2" "L2" 100) (junkDB Unit)

/-- Concrete check of the C6 theorem: round trip of the empty flat
database through a fresh file system. -/
theorem save_load_roundtrip_witness :
    VectorDatabase.load (dbEmptyFlat.save (fun _ => none) "index.bin" "meta.pkl")
      "index.bin" "meta.pkl" = .ok dbEmptyFlat ∧
    (VectorDatabase.load (dbEmptyFlat.save (fun _ => none) "index.bin" "meta.pkl")
      "index.bin" "meta.pkl").map VectorDatabase.get_stats = .ok dbEmptyFlat.get_stats ∧
    (VectorDatabase.load (dbEmptyFlat.save (fun _ => none) "index.bin" "meta.pkl")
      "index.bin" "meta.pkl").map (fun d2 => d2.search [1, 0] 3 true)
      = .ok (dbEmptyFlat.search [1, 0] 3 true) :=
  save_load_roundtrip Unit dbEmptyFlat (fun _ => none) "index.bin" "meta.pkl"
    [1, 0] 3 (by decide)

/-- C7 (amended): `save` writes both artifacts directly at their final
paths with no temp-then-replace; a failure after the index write and
before the metadata write leaves the file system holding the NEW index
next to the OLD metadata+configuration, which `load` accepts — so the
previously intact pair is neither preserved nor restored. -/
theorem save_interrupted_mixes_pair (α : Type) (db0 db1 : VectorDatabase α)
    (fs : FS α) (ip mp : String) (h : ip ≠ mp) :
    VectorDatabase.load (db1.saveIndexStep (db0.save fs ip mp) ip) ip mp =
      .ok { dimension := db0.dimension, index_type := db0.index_type,
            metric := db0.metric, nlist := db0.nlist,
            index := db1.index, metadata := db0.metadata } := by
  simp [VectorDatabase.save, VectorDatabase.saveIndexStep, VectorDatabase.load,
    writeFS, h, Ne.symm h]

/-- The empty flat database after one successful insertion. -/
def dbOneFlat : VectorDatabase Unit :=
  getOk (dbEmptyFlat.add_embeddings [[1, 2]] [()]) (junkDB Unit)

/-- The on-disk state after saving `dbEmptyFlat` to both paths. -/
def fsSaved : FS Unit :=
  dbEmptyFlat.save (fun _ => none) "index.bin" "meta.pkl"

/-- The on-disk state when a re-save of `dbOneFlat` dies between the index
write and the metadata write. -/
def fsInterrupted : FS Unit :=
  dbOneFlat.saveIndexStep fsSaved "index.bin"

/-- C7 (counterexample): starting from an intact, loadable pair for
`dbEmptyFlat`, a persist of `dbOneFlat` that fails partway (after the
index write) has already overwritten the old index artifact; the
surviving pair is NOT the previous pair, yet it still loads — as a
database whose stored-vector count (1) disagrees with its metadata count
(0). -/
theorem save_interrupted_write_cex :
    VectorDatabase.load fsSaved "index.bin" "meta.pkl" = .ok dbEmptyFlat ∧
    fsInterrupted "index.bin" ≠ fsSaved "index.bin" ∧
    (VectorDatabase.load fsInterrupted "index.bin" "meta.pkl").map
      (fun db => (db.index.ntotal, db.metadata.length)) = .ok (1, 0) ∧
    (1 : Nat) ≠ 0 :=
  ⟨rfl, by decide, rfl, by decide⟩

/-- Concrete check of the C7 (amended) theorem at the same pair of
databases and paths. -/
theorem save_interrupted_mixes_pair_witness :
    VectorDatabase.load (dbOneFlat.saveIndexStep
        (dbEmptyFlat.save (fun _ => none) "index.bin" "meta.pkl") "index.bin")
      "index.bin" "meta.pkl" =
      .ok { dimension := dbEmptyFlat.dimension, index_type := dbEmptyFlat.index_type,
            metric := dbEmptyFlat.metric, nlist := dbEmptyFlat.nlist,
            index := dbOneFlat.index, metadata := dbEmptyFlat.metadata } :=
  save_interrupted_mixes_pair Unit dbEmptyFlat dbOneFlat (fun _ => none)
    "index.bin" "meta.pkl" (by decide)

/-! ## Training-state claims -/

/-- C4 (amended): `add_embeddings` on an untrained clustered (IVF) index
does not fail — there is no `NotTrainedError` in the code; instead it
trains the index on the incoming (possibly normalized) batch and then
inserts: after a length-matched add the index is trained and holds the
batch. -/
theorem add_on_untrained_ivf_trains (α : Type) (db : VectorDatabase α)
    (es : List (List ℚ)) (ms : List α)
    (hivf : db.index.isIVF = true) (hun : db.index.isTrained = false)
    (hlen : es.length = ms.length) :
    ∃ db', db.add_embeddings es ms = .ok db' ∧ db'.index.isTrained = true ∧
      db'.index.ntotal = db.index.ntotal + es.length ∧
      db'.metadata = db.metadata ++ ms := by
  have hnn : ¬ es.length ≠ ms.length := by omega
  have hlenb : (if db.ipNormalize = true then es.map normalizeL2Row else es).length
      = es.length := by
    split <;> simp
  have heq : db.add_embeddings es ms = .ok
      { db with
        index :=
          { dimension := db.index.dimension, metric := db.index.metric,
            isIVF := db.index.isIVF, isTrained := true,
            vectors := db.index.vectors ++
              (if db.ipNormalize = true then es.map normalizeL2Row else es) },
        metadata := db.metadata ++ ms } := by
    simp only [VectorDatabase.add_embeddings, if_neg hnn, if_pos (And.intro hivf hun)]
  exact ⟨_, heq, rfl, by simp [FaissIndex.ntotal, List.length_append, hlenb], rfl⟩

/-- C4 (counterexample): a freshly created `IndexIVFFlat` database is
untrained, yet `add_embeddings` on it SUCCEEDS and inserts the batch
(auto-training the index on the way) — it does not fail with
`NotTrainedError`, an identifier that appears nowhere in the repository. -/
theorem add_on_untrained_ivf_succeeds_cex :
    ((VectorDatabase.init Unit 1 "IndexIVFFlat" "L2" 100).map fun db =>
      (db.index.isIVF, db.index.isTrained)) = .ok (true, false) ∧
    (((VectorDatabase.init Unit 1 "IndexIVFFlat" "L2" 100).bind fun db =>
      db.add_embeddings [[0]] [()]).map fun db =>
      (db.index.isTrained, db.index.ntotal, db.metadata.length)) = .ok (true, 1, 1) := by
  exact ⟨rfl, rfl⟩

/-- The untrained IVF database used to exercise the C4 theorem. -/
def dbIVFFresh : VectorDatabase Unit :=
  getOk (VectorDatabase.init Unit 1 "IndexIVFFlat" "L2" 100) (junkDB Unit)

/-- Concrete check of the C4 (amended) theorem on the fresh IVF database. -/
theorem add_on_untrained_ivf_trains_witness :
    ∃ db', dbIVFFresh.add_embeddings [[0]] [()] = .ok db' ∧
      db'.index.isTrained = true ∧
      db'.index.ntotal = dbIVFFresh.index.ntotal + 1 ∧
      db'.metadata = dbIVFFresh.metadata ++ [()] :=
  add_on_untrained_ivf_trains Unit dbIVFFresh [[0]] [()] (by decide) (by decide)
    (by decide)

/-! ## Similarity canonicalization -/

/-- C1 (amended): the similarity conversion of `search`/`search_batch`
keys on the literal substring `"L2"` of the index-type STRING, not on the
metric: scores are reported as `1/(1+d)` exactly when the index-type name
contains `"L2"`, and are passed through raw otherwise; for an IP index the
raw scores are dot products with the (normalized) query — but
`IndexIVFFlat` and `IndexHNSWFlat` are L2-METRIC indexes whose names lack
`"L2"`, so their raw L2 distances are reported unconverted. -/
theorem similarity_canonicalized_by_name (α : Type) (db : VectorDatabase α)
    (q : List ℚ) (qs : List (List ℚ)) (k : Nat) (hne : db.index.ntotal ≠ 0) :
    (strContains db.index_type "L2" = true →
      (db.search q k true).2 = some ((db.searchRaw q k).1.map fun d => 1 / (1 + d)) ∧
      (db.search_batch qs k).2
        = qs.map fun q2 => (db.searchRaw q2 k).1.map fun d => 1 / (1 + d)) ∧
    (strContains db.index_type "L2" = false →
      (db.search q k true).2 = some (db.searchRaw q k).1 ∧
      (db.search_batch qs k).2 = qs.map fun q2 => (db.searchRaw q2 k).1) ∧
    (db.index.metric = .IP →
      ∀ s ∈ (db.searchRaw q k).1, ∃ v ∈ db.index.vectors,
        s = dotQ (db.prepQuery q) v) ∧
    ((createIndex "IndexIVFFlat" db.dimension).map FaissIndex.metric
        = .ok .L2 ∧
      strContains "IndexIVFFlat" "L2" = false ∧
      (createIndex "IndexHNSWFlat" db.dimension).map FaissIndex.metric
        = .ok .L2 ∧
      strContains "IndexHNSWFlat" "L2" = false) := by
  refine ⟨?_, ?_, ?_, rfl, by decide, rfl, by decide⟩
  · intro h
    constructor
    · simp [VectorDatabase.search, hne, convertSims, h]
    · simp [VectorDatabase.search_batch, hne, convertSims, h]
  · intro h
    constructor
    · simp [VectorDatabase.search, hne, convertSims, h]
    · simp [VectorDatabase.search_batch, hne, convertSims, h]
  · intro h s hs
    obtain ⟨v, hv, rfl⟩ := mem_faissSearch_fst hs
    exact ⟨v, hv, by simp [h, scoreOf]⟩

/-- The untrained IVF database after one insertion (which trains it). -/
def dbIVFOne : VectorDatabase Unit :=
  getOk (dbIVFFresh.add_embeddings [[0]] [()]) (junkDB Unit)

/-- C1 (counterexample): an `IndexIVFFlat` database is an L2-METRIC index;
storing the vector `[0]` and querying `[1]` (raw squared L2 distance `1`),
`search` reports similarity `1` — the raw distance — not the `1/(1+d) = 1/2`
the claim requires; so scores of this L2-metric index are not
canonicalized to higher-is-better. -/
theorem similarity_not_canonical_on_ivf_cex :
    dbIVFOne.metric = "L2" ∧ dbIVFOne.index.metric = .L2 ∧
    (dbIVFOne.search [1] 1 true).2 = some [1] ∧
    (1 : ℚ) ≠ 1 / (1 + 1) := by
  refine ⟨rfl, rfl, ?_, by norm_num⟩
  show some [sqDistQ [1] [0]] = some [1]
  norm_num [sqDistQ]

/-- Concrete check of the C1 (amended) theorem on the flat L2 database. -/
theorem similarity_canonicalized_by_name_witness :
    (strContains dbThree.index_type "L2" = true →
      (dbThree.search [5] 2 true).2
        = some ((dbThree.searchRaw [5] 2).1.map fun d => 1 / (1 + d)) ∧
      (dbThree.search_batch [[0]] 2).2
        = ([[0]] : List (List ℚ)).map fun q2 =>
            (dbThree.searchRaw q2 2).1.map fun d => 1 / (1 + d)) ∧
    (strContains dbThree.index_type "L2" = false →
      (dbThree.search [5] 2 true).2 = some (dbThree.searchRaw [5] 2).1 ∧
      (dbThree.search_batch [[0]] 2).2
        = ([[0]] : List (List ℚ)).map fun q2 => (dbThree.searchRaw q2 2).1) ∧
    (dbThree.index.metric = .IP →
      ∀ s ∈ (dbThree.searchRaw [5] 2).1, ∃ v ∈ dbThree.index.vectors,
        s = dotQ (dbThree.prepQuery [5]) v) ∧
    ((createIndex "IndexIVFFlat" dbThree.dimension).map FaissIndex.metric
        = .ok .L2 ∧
      strContains "IndexIVFFlat" "L2" = false ∧
      (createIndex "IndexHNSWFlat" dbThree.dimension).map FaissIndex.metric
        = .ok .L2 ∧
      strContains "IndexHNSWFlat" "L2" = false) :=
  similarity_canonicalized_by_name Nat dbThree [5] [[0]] 2 (by decide)

/-! ## Builder augmentation policy -/

/-- Checker for one built metadata entry: originals pass outright; a
synthetic entry must copy the record of one of the sources, carry a
1-based sequence index `j ≤ augmentCount`, and a transform kind chosen as
`(j - 1) % 5`. -/
def entryOk (sources : List (Img × SkuRecord)) (n : Nat) (m : EntryMeta) : Bool :=
  !m.augmented ||
    ((sources.any fun s => decide (m.info = s.2)) &&
     (match m.aug_index with
      | some j => decide (1 ≤ j) && decide (j ≤ n) &&
          decide (m.aug_type = some ((j - 1) % 5))
      | none => false))

theorem entryOk_mono {s : Img × SkuRecord} {rest : List (Img × SkuRecord)}
    {n : Nat} {m : EntryMeta} (h : entryOk rest n m = true) :
    entryOk (s :: rest) n m = true := by
  simp only [entryOk, List.any_cons, Bool.or_eq_true, Bool.and_eq_true] at h ⊢
  tauto

/-- C8: over any list of successfully processed sources and any
`augmentCount = n > 0`, the builder loop emits `(n+1)` metadata entries
per source — exactly one original and exactly `n` synthetic — with the
embedding list in lockstep, and every synthetic entry copies its source
record, carries sequence index `j ∈ [1, n]`, and transform kind
`(j-1) % 5` out of the 5 kinds. -/
theorem builder_augmentation_policy (encode : Img → List ℚ)
    (augment : Img → Nat → Img) (sources : List (Img × SkuRecord)) (n : Nat)
    (hn : 0 < n) :
    (buildEntries encode augment n sources).2.length = sources.length * (n + 1) ∧
    ((buildEntries encode augment n sources).2.filter fun m => !m.augmented).length
      = sources.length ∧
    ((buildEntries encode augment n sources).2.filter fun m => m.augmented).length
      = sources.length * n ∧
    (buildEntries encode augment n sources).1.length
      = (buildEntries encode augment n sources).2.length ∧
    (buildEntries encode augment n sources).2.all (entryOk sources n) = true := by
  induction sources with
  | nil => simp [buildEntries]
  | cons s rest ih =>
    obtain ⟨ih1, ih2, ih3, ih4, ih5⟩ := ih
    have hsynthT : ((List.range n).map (synthMeta s.2)).filter (fun m => m.augmented)
        = (List.range n).map (synthMeta s.2) := by
      rw [List.filter_eq_self]
      intro a ha
      simp only [List.mem_map] at ha
      obtain ⟨i, _, rfl⟩ := ha
      rfl
    have hsynthF : ((List.range n).map (synthMeta s.2)).filter (fun m => !m.augmented)
        = [] := by
      rw [List.filter_eq_nil]
      intro a ha
      simp only [List.mem_map] at ha
      obtain ⟨i, _, rfl⟩ := ha
      simp [synthMeta]
    have hfilterF : ((sourceMetas s.2 n).filter fun m => !m.augmented).length = 1 := by
      simp [sourceMetas, origMeta, hsynthF]
    have hfilterT : ((sourceMetas s.2 n).filter fun m => m.augmented).length = n := by
      simp [sourceMetas, origMeta, hsynthT]
    have hblock : ∀ m ∈ sourceMetas s.2 n, entryOk (s :: rest) n m = true := by
      intro m hm
      rcases List.mem_cons.mp hm with h1 | h2
      · simp [h1, entryOk, origMeta]
      · simp only [List.mem_map] at h2
        obtain ⟨i, hi, rfl⟩ := h2
        have hin : i < n := List.mem_range.mp hi
        simp [entryOk, synthMeta, List.any_cons]
        omega
    refine ⟨?_, ?_, ?_, ?_, ?_⟩
    · simp only [buildEntries, List.length_append, ih1, sourceMetas,
        List.length_cons, List.length_map, List.length_range]
      ring
    · simp only [buildEntries, List.filter_append, List.length_append, hfilterF, ih2,
        List.length_cons]
      omega
    · simp only [buildEntries, List.filter_append, List.length_append, hfilterT, ih3,
        List.length_cons]
      ring
    · simp only [buildEntries, List.length_append, ih4, sourceEmbeds, sourceMetas,
        List.length_cons, List.length_map, List.length_range]
    · rw [List.all_eq_true]
      intro m hm
      simp only [buildEntries] at hm
      rcases List.mem_append.mp hm with h1 | h2
      · exact hblock m h1
      · exact entryOk_mono (List.all_eq_true.mp ih5 m h2)

/-- Five sources with distinct records, as in the spec scenario. -/
def srcFive : List (Img × SkuRecord) :=
  [(⟨10, 10⟩, ⟨"A", "a", "c"⟩), (⟨10, 10⟩, ⟨"B", "b", "c"⟩),
   (⟨10, 10⟩, ⟨"C", "c", "c"⟩), (⟨10, 10⟩, ⟨"D", "d", "c"⟩),
   (⟨10, 10⟩, ⟨"E", "e", "c"⟩)]

/-- Concrete check of the C8 theorem, at the spec scenario
`augmentCount = 2` over 5 sources: 15 entries, 5 originals, 10 synthetic. -/
theorem builder_augmentation_policy_witness :
    (buildEntries (fun _ => [0]) (fun i _ => i) 2 srcFive).2.length = 15 ∧
    ((buildEntries (fun _ => [0]) (fun i _ => i) 2 srcFive).2.filter
      fun m => !m.augmented).length = 5 ∧
    ((buildEntries (fun _ => [0]) (fun i _ => i) 2 srcFive).2.filter
      fun m => m.augmented).length = 10 ∧
    (buildEntries (fun _ => [0]) (fun i _ => i) 2 srcFive).1.length
      = (buildEntries (fun _ => [0]) (fun i _ => i) 2 srcFive).2.length ∧
    (buildEntries (fun _ => [0]) (fun i _ => i) 2 srcFive).2.all
      (entryOk srcFive 2) = true :=
  builder_augmentation_policy (fun _ => [0]) (fun i _ => i) srcFive 2 (by decide)

/-! ## Recognition-pipeline fallback -/

theorem ratTrunc_zero : ratTrunc 0 = 0 := by
  simp [ratTrunc]

theorem ratTrunc_natCast (a : Nat) : ratTrunc (a : ℚ) = (a : Int) := by
  simp [ratTrunc, Rat.num_natCast, Rat.den_natCast]

/-- The fallback detection box: the whole image, in pixel coordinates. -/
def fullBox (image : Img) : Box4 :=
  { x1 := 0, y1 := 0, x2 := (image.width : ℚ), y2 := (image.height : ℚ) }

/-- The crop of the fallback box: the whole image. -/
def fullCrop (image : Img) : CropRegion :=
  { img := image, x1 := 0, y1 := 0, x2 := (image.width : Int), y2 := (image.height : Int) }

theorem crop_detections_fallback (image : Img) :
    crop_detections image [fullBox image] = [fullCrop image] := by
  simp [crop_detections, fullBox, fullCrop, ratTrunc_zero, ratTrunc_natCast,
    min_self, max_self,
    min_eq_left (Int.natCast_nonneg image.width),
    min_eq_left (Int.natCast_nonneg image.height),
    max_eq_right (Int.natCast_nonneg image.width),
    max_eq_right (Int.natCast_nonneg image.height)]

/-- C9 (amended): the single full-image fallback region (confidence `1.0`,
label `"product"`) is produced when the detector model is unavailable OR
detection raises; the pipeline then proceeds through embedding and
retrieval on that one region, emitting a result exactly when a match came
back with best similarity ≥ the threshold.  (When a loaded detector
returns zero boxes, no fallback occurs — see the counterexample.) -/
theorem fallback_single_region (α : Type) (p : Pipeline α) (image : Img)
    (hdet : p.detector.model = none ∨
      ∃ f e, p.detector.model = some f ∧ f image = .error e)
    (hw : 10 ≤ image.width) (hh : 10 ≤ image.height) :
    p.detector.detect image = ([fullBox image], [1], ["product"]) ∧
    p.process_image image =
      (if 0 < (p.vector_db.search (p.encode (fullCrop image)) p.top_k true).1.length ∧
          p.confidence_threshold ≤
            (((p.vector_db.search (p.encode (fullCrop image)) p.top_k
              true).2.getD []).headD 0) then
        [{ detection_id := 0, box := fullBox image,
           detection_score := 1, detection_label := "product",
           top_matches := (p.vector_db.search (p.encode (fullCrop image)) p.top_k
              true).1.zip
            ((p.vector_db.search (p.encode (fullCrop image)) p.top_k
              true).2.getD []) }]
       else []) := by
  have hd : p.detector.detect image = fallback_detect image := by
    rcases hdet with h | ⟨f, e, hf, he⟩
    · simp [Detector.detect, h]
    · simp [Detector.detect, hf, he]
  have hd2 : p.detector.detect image = ([fullBox image], [1], ["product"]) := hd
  refine ⟨hd2, ?_⟩
  simp only [Pipeline.process_image, hd2]
  rw [if_neg (by simp)]
  rw [crop_detections_fallback]
  show processDetections p 0 [(fullBox image, 1, "product", fullCrop image)] = _
  simp only [processDetections, CropRegion.rows, CropRegion.cols, fullCrop]
  rw [if_neg (by simp [Int.toNat_natCast]; omega)]

/-- A loaded detector whose predict function succeeds with zero boxes. -/
def zeroBoxDetector : Detector :=
  { model := some fun _ => .ok ([], [], []) }

/-- A pipeline around the zero-box detector and the empty flat database. -/
def pZeroBoxes : Pipeline Unit :=
  { detector := zeroBoxDetector, encode := fun _ => [0],
    vector_db := dbEmptyFlat, confidence_threshold := 0, top_k := 5 }

/-- A 100×100 input image. -/
def imgBig : Img := { width := 100, height := 100 }

/-- C9 (counterexample): with a loaded detector that returns ZERO boxes,
`detect` returns the empty detection set — not the one full-image region
the claim requires — and `process_image` returns `[]` without embedding
or retrieving anything; the fallback fires only when the model is absent
or raises. -/
theorem zero_boxes_no_fallback_cex :
    pZeroBoxes.detector.detect imgBig = ([], [], []) ∧
    pZeroBoxes.process_image imgBig = [] ∧
    (fallback_detect imgBig).1.length = 1 ∧
    (pZeroBoxes.detector.detect imgBig).1.length ≠ 1 :=
  ⟨rfl, rfl, rfl, by decide⟩

/-- The pipeline with no detector model loaded, used to exercise the C9
theorem. -/
def pNoModel : Pipeline Unit :=
  { detector := { model := none }, encode := fun _ => [0],
    vector_db := dbEmptyFlat, confidence_threshold := 0, top_k := 5 }

/-- Concrete check of the C9 (amended) theorem: detector unavailable on a
100×100 image. -/
theorem fallback_single_region_witness :
    pNoModel.detector.detect imgBig = ([fullBox imgBig], [1], ["product"]) ∧
    pNoModel.process_image imgBig =
      (if 0 < (pNoModel.vector_db.search (pNoModel.encode (fullCrop imgBig))
            pNoModel.top_k true).1.length ∧
          pNoModel.confidence_threshold ≤
            (((pNoModel.vector_db.search (pNoModel.encode (fullCrop imgBig))
              pNoModel.top_k true).2.getD []).headD 0) then
        [{ detection_id := 0, box := fullBox imgBig,
           detection_score := 1, detection_label := "product",
           top_matches := (pNoModel.vector_db.search (pNoModel.encode (fullCrop imgBig))
              pNoModel.top_k true).1.zip
            ((pNoModel.vector_db.search (pNoModel.encode (fullCrop imgBig))
              pNoModel.top_k true).2.getD []) }]
       else []) :=
  fallback_single_region Unit pNoModel imgBig (Or.inl rfl) (by decide) (by decide)

/-! ## Augmentation dispatch -/

/-- C10: `ImageAugmenter.augment` with an augmentation-type string outside
the supported set returns the input image unchanged (no exception). -/
theorem augment_unknown_type_identity (Image : Type) (aug : ImageAugmenter Image)
    (image : Image) (t : String)
    (h : t ∉ ["flip_h", "flip_v", "crop", "brightness", "contrast", "noise", "rotate"]) :
    aug.augment image t = image := by
  simp only [List.mem_cons, List.not_mem_nil, or_false, not_or] at h
  obtain ⟨h1, h2, h3, h4, h5, h6, h7⟩ := h
  simp only [ImageAugmenter.augment, augmentationMap, List.lookup]
  rw [show (t == "flip_h") = false by simp [h1],
    show (t == "flip_v") = false by simp [h2],
    show (t == "crop") = false by simp [h3],
    show (t == "brightness") = false by simp [h4],
    show (t == "contrast") = false by simp [h5],
    show (t == "noise") = false by simp [h6],
    show (t == "rotate") = false by simp [h7]]

/-- The identity augmenter over the unit image type. -/
def idAugmenter : ImageAugmenter Unit :=
  { flip_horizontal := id, flip_vertical := id, random_crop := id,
    adjust_brightness := id, adjust_contrast := id, add_noise := id,
    rotateImage := id }

/-- Concrete check of the C10 theorem at the unsupported type `"zoom"`. -/
theorem augment_unknown_type_identity_witness :
    idAugmenter.augment () "zoom" = () :=
  augment_unknown_type_identity Unit idAugmenter () "zoom" (by decide)
